import Mathlib

/-!
Verification of the zargo 2D rendering engine API (src/include/zargo/zargo.h,
exercised by src/tests/test.c).

The repository ships only the C header (type layouts and function
declarations) and a test program; the function bodies live outside src/.
Types are embedded from the header; the behavior of each operation is
modelled from the specification (spec.md), as noted on each definition.

Numeric conventions of the embedding:
* `float` values are modelled as exact rationals (`ℚ`); equalities proved
  exactly subsume the spec's epsilon-tolerance equalities.
* `int32_t`/`uint32_t` rectangle fields are modelled as `ℤ`; the header
  declares widths unsigned, but the spec's formulas (`width+dw`,
  `r.width-width`) are stated over plain integers and spec §9 treats the
  exact integer representation as an open question, so the embedding keeps
  the arithmetic exact instead of wrapping modulo 2^32.
* integer division by 2 is C-style truncation toward zero (`Int.tdiv`).
-/

/-- `zargo_Transform` from the header: `float m[3][2]`, a 3×2 affine matrix.
Field `mij` is column `i`, row `j`: columns 0 and 1 are the linear part,
column 2 the translation. -/
structure zargo_Transform where
  m00 : ℚ
  m01 : ℚ
  m10 : ℚ
  m11 : ℚ
  m20 : ℚ
  m21 : ℚ
  deriving DecidableEq, Repr

/-- Modelled from the spec: a Transform is "a 3×2 affine matrix mapping a 2D
point to another 2D point"; applying it sends `(x,y)` to the linear part
times `(x,y)` plus the translation column. -/
def zargo_transform_apply (t : zargo_Transform) (p : ℚ × ℚ) : ℚ × ℚ :=
  (t.m00 * p.1 + t.m10 * p.2 + t.m20, t.m01 * p.1 + t.m11 * p.2 + t.m21)

/-- Modelled from the spec: `identity()` is "the transform representing no
rotation/scale, zero translation" (body of `zargo_transform_identity` is not
under src/). -/
def zargo_transform_identity : zargo_Transform :=
  ⟨1, 0, 0, 1, 0, 0⟩

/-- Modelled from the spec: `compose(l, r)` is "matrix multiplication in that
order", the transform applying `r` then `l` (body of
`zargo_transform_compose` is not under src/). -/
def zargo_transform_compose (l r : zargo_Transform) : zargo_Transform where
  m00 := l.m00 * r.m00 + l.m10 * r.m01
  m01 := l.m01 * r.m00 + l.m11 * r.m01
  m10 := l.m00 * r.m10 + l.m10 * r.m11
  m11 := l.m01 * r.m10 + l.m11 * r.m11
  m20 := l.m00 * r.m20 + l.m10 * r.m21 + l.m20
  m21 := l.m01 * r.m20 + l.m11 * r.m21 + l.m21

/-- A pure translation matrix: identity linear part, translation `(dx,dy)`. -/
def zargo_translation_matrix (dx dy : ℚ) : zargo_Transform :=
  ⟨1, 0, 0, 1, dx, dy⟩

/-- Modelled from the spec: `translate(t, dx, dy)` is "`t` composed with a
translation on its right" (body of `zargo_transform_translate` is not under
src/). -/
def zargo_transform_translate (t : zargo_Transform) (dx dy : ℚ) : zargo_Transform :=
  zargo_transform_compose t (zargo_translation_matrix dx dy)

/-- `zargo_Rectangle` from the header: `{int32_t x, y; uint32_t width,
height}`, embedded with exact integer fields (see the file comment). -/
structure zargo_Rectangle where
  x : ℤ
  y : ℤ
  width : ℤ
  height : ℤ
  deriving DecidableEq, Repr

/-- Modelled from the spec: `transformation(r)` maps the unit square onto
`r`'s full extent — scale by `(width, height)`, then translate by `(x, y)`
(body of `zargo_rectangle_transformation` is not under src/). -/
def zargo_rectangle_transformation (r : zargo_Rectangle) : zargo_Transform :=
  ⟨(r.width : ℚ), 0, 0, (r.height : ℚ), (r.x : ℚ), (r.y : ℚ)⟩

/-- Modelled from the spec: `grow(r, dw, dh)` gives "new size `(width+dw,
height+dh)`, repositioned so the rectangle's center is preserved (`x -=
dw/2`, `y -= dh/2`)", with C-style truncated division on the signed deltas
(body of `zargo_rectangle_grow` is not under src/). -/
def zargo_rectangle_grow (r : zargo_Rectangle) (dw dh : ℤ) : zargo_Rectangle :=
  ⟨r.x - dw.tdiv 2, r.y - dh.tdiv 2, r.width + dw, r.height + dh⟩

/-- The exact (rational) center point of a rectangle. -/
def zargo_rectangle_center (r : zargo_Rectangle) : ℚ × ℚ :=
  ((r.x : ℚ) + (r.width : ℚ) / 2, (r.y : ℚ) + (r.height : ℚ) / 2)

/-- Horizontal alignment constants `ZARGO_HALIGN_*` from the header. -/
inductive zargo_HAlign where
  | LEFT
  | CENTER
  | RIGHT
  deriving DecidableEq, Repr

/-- Vertical alignment constants `ZARGO_VALIGN_*` from the header. -/
inductive zargo_VAlign where
  | TOP
  | MIDDLE
  | BOTTOM
  deriving DecidableEq, Repr

/-- Modelled from the spec: `position(r, width, height, halign, valign)`
places a `width×height` rectangle inside `r` per alignment: `{LEFT: x=r.x,
CENTER: x=r.x+(r.width-width)/2, RIGHT: x=r.x+r.width-width}`, vertical
analogous (body of `zargo_rectangle_position` is not under src/). -/
def zargo_rectangle_position (r : zargo_Rectangle) (width height : ℤ)
    (halign : zargo_HAlign) (valign : zargo_VAlign) : zargo_Rectangle where
  x := match halign with
    | .LEFT => r.x
    | .CENTER => r.x + (r.width - width).tdiv 2
    | .RIGHT => r.x + r.width - width
  y := match valign with
    | .TOP => r.y
    | .MIDDLE => r.y + (r.height - height).tdiv 2
    | .BOTTOM => r.y + r.height - height
  width := width
  height := height

/-- C1: `transformation(r)` maps the unit square onto `r`'s full extent:
`(0,0) ↦ (r.x, r.y)` and `(1,1) ↦ (r.x + r.width, r.y + r.height)`. -/
theorem C1_rectangle_transformation_unit_square (r : zargo_Rectangle) :
    zargo_transform_apply (zargo_rectangle_transformation r) (0, 0) =
      ((r.x : ℚ), (r.y : ℚ)) ∧
    zargo_transform_apply (zargo_rectangle_transformation r) (1, 1) =
      ((r.x : ℚ) + (r.width : ℚ), (r.y : ℚ) + (r.height : ℚ)) := by
  constructor
  · simp [zargo_transform_apply, zargo_rectangle_transformation]
  · simp [zargo_transform_apply, zargo_rectangle_transformation, Prod.ext_iff]
    constructor <;> ring

/-- C2: `compose(l, r)` applies `r` first and `l` second on every point, and
composition is not commutative: some pair composes to different transforms
in the two orders. -/
theorem C2_compose_applies_right_then_left :
    (∀ (l r : zargo_Transform) (p : ℚ × ℚ),
      zargo_transform_apply (zargo_transform_compose l r) p =
        zargo_transform_apply l (zargo_transform_apply r p)) ∧
    (∃ l r : zargo_Transform,
      zargo_transform_compose l r ≠ zargo_transform_compose r l) := by
  constructor
  · intro l r p
    simp [zargo_transform_apply, zargo_transform_compose, Prod.ext_iff]
    constructor <;> ring
  · refine ⟨⟨1, 0, 0, 1, 1, 0⟩, ⟨2, 0, 0, 1, 0, 0⟩, fun h => ?_⟩
    exact absurd (congrArg zargo_Transform.m20 h)
      (by norm_num [zargo_transform_compose])

/-- C3: the identity transform is a left and right neutral element of
composition (proved as exact equality of all six entries, which subsumes
equality within any epsilon). -/
theorem C3_identity_neutral (t : zargo_Transform) :
    zargo_transform_compose zargo_transform_identity t = t ∧
    zargo_transform_compose t zargo_transform_identity = t := by
  obtain ⟨a, b, c, d, e, f⟩ := t
  constructor <;>
    · simp [zargo_transform_compose, zargo_transform_identity]

/-- C4: composing the pure translation by `(dx, dy)` with the pure
translation by `(-dx, -dy)` yields the identity transform (exactly, hence
within any epsilon). -/
theorem C4_translate_then_untranslate (dx dy : ℚ) :
    zargo_transform_compose
      (zargo_transform_translate zargo_transform_identity dx dy)
      (zargo_transform_translate zargo_transform_identity (-dx) (-dy)) =
      zargo_transform_identity := by
  simp [zargo_transform_compose, zargo_transform_translate,
    zargo_translation_matrix, zargo_transform_identity]

/-- C5: `position` returns a rectangle of exactly the requested size, with
`x` given by `r.x` (LEFT), `r.x+(r.width-width)/2` (CENTER), or
`r.x+r.width-width` (RIGHT), and `y` analogously for TOP/MIDDLE/BOTTOM; the
formulas are total, so a requested size exceeding `r`'s size is legal, and
the quadrant layout used by the test program follows. -/
theorem C5_position_alignment_formulas (r : zargo_Rectangle) (width height : ℤ)
    (halign : zargo_HAlign) (valign : zargo_VAlign) :
    (zargo_rectangle_position r width height halign valign).width = width ∧
    (zargo_rectangle_position r width height halign valign).height = height ∧
    (zargo_rectangle_position r width height halign valign).x =
      (match halign with
        | .LEFT => r.x
        | .CENTER => r.x + (r.width - width).tdiv 2
        | .RIGHT => r.x + r.width - width) ∧
    (zargo_rectangle_position r width height halign valign).y =
      (match valign with
        | .TOP => r.y
        | .MIDDLE => r.y + (r.height - height).tdiv 2
        | .BOTTOM => r.y + r.height - height) ∧
    zargo_rectangle_position ⟨0, 0, 200, 200⟩ 100 100 .LEFT .TOP =
      ⟨0, 0, 100, 100⟩ ∧
    zargo_rectangle_position ⟨0, 0, 200, 200⟩ 100 100 .RIGHT .BOTTOM =
      ⟨100, 100, 100, 100⟩ ∧
    zargo_rectangle_position ⟨0, 0, 200, 200⟩ 100 100 .CENTER .MIDDLE =
      ⟨50, 50, 100, 100⟩ ∧
    zargo_rectangle_position ⟨0, 0, 10, 10⟩ 20 20 .CENTER .MIDDLE =
      ⟨-5, -5, 20, 20⟩ :=
  ⟨rfl, rfl, rfl, rfl, by decide, by decide, by decide, by decide⟩

/-- C6 counterexample: growing the 1×1 rectangle at the origin by `(1, 1)`
moves its exact center from `(1/2, 1/2)` to `(1, 1)`, so the center is not
preserved for odd deltas. -/
theorem C6_grow_center_counterexample :
    zargo_rectangle_grow ⟨0, 0, 1, 1⟩ 1 1 = ⟨0, 0, 2, 2⟩ ∧
    zargo_rectangle_center (zargo_rectangle_grow ⟨0, 0, 1, 1⟩ 1 1) ≠
      zargo_rectangle_center ⟨0, 0, 1, 1⟩ := by
  have hg : zargo_rectangle_grow ⟨0, 0, 1, 1⟩ 1 1 = ⟨0, 0, 2, 2⟩ := by decide
  refine ⟨hg, ?_⟩
  rw [hg]
  intro h
  have h1 := congrArg Prod.fst h
  norm_num [zargo_rectangle_center] at h1

/-- C6 (amended): `grow(r, dw, dh)` has size `(r.width+dw, r.height+dh)` and
origin `(r.x - dw/2, r.y - dh/2)` with truncating division; the center point
is preserved whenever `dw` and `dh` are even (for odd deltas it moves by
half a unit, as the counterexample shows). -/
theorem C6_grow_size_and_center (r : zargo_Rectangle) (dw dh : ℤ) :
    (zargo_rectangle_grow r dw dh).width = r.width + dw ∧
    (zargo_rectangle_grow r dw dh).height = r.height + dh ∧
    (zargo_rectangle_grow r dw dh).x = r.x - dw.tdiv 2 ∧
    (zargo_rectangle_grow r dw dh).y = r.y - dh.tdiv 2 ∧
    (2 ∣ dw → 2 ∣ dh →
      zargo_rectangle_center (zargo_rectangle_grow r dw dh) =
        zargo_rectangle_center r) := by
  refine ⟨rfl, rfl, rfl, rfl, fun hw hh => ?_⟩
  obtain ⟨a, rfl⟩ := hw
  obtain ⟨b, rfl⟩ := hh
  have ha : (2 * a).tdiv 2 = a := Int.mul_tdiv_cancel_left a (by norm_num)
  have hb : (2 * b).tdiv 2 = b := Int.mul_tdiv_cancel_left b (by norm_num)
  simp only [zargo_rectangle_center, zargo_rectangle_grow, ha, hb, Prod.ext_iff]
  constructor <;> push_cast <;> ring

/-- C6 witness: growing a 4×4 rectangle by the even deltas `(2, 2)` keeps
its center at `(2, 2)`. -/
theorem C6_grow_size_and_center_witness :
    (2 : ℤ) ∣ 2 ∧
    zargo_rectangle_center (zargo_rectangle_grow ⟨0, 0, 4, 4⟩ 2 2) =
      zargo_rectangle_center ⟨0, 0, 4, 4⟩ :=
  ⟨⟨1, rfl⟩, (C6_grow_size_and_center ⟨0, 0, 4, 4⟩ 2 2).2.2.2.2 ⟨1, rfl⟩ ⟨1, rfl⟩⟩

/-- `zargo_Image` from the header: `{uint32_t id; uint32_t width, height;
bool flipped, has_alpha}` — a non-owning descriptor of a GPU texture;
`id == 0` is the reserved empty sentinel. -/
structure zargo_Image where
  id : ℕ
  width : ℕ
  height : ℕ
  flipped : Bool
  has_alpha : Bool
  deriving DecidableEq, Repr

/-- Modelled from the spec: `empty()` is the "sentinel with `id=0`" (body of
`zargo_image_empty` is not under src/). -/
def zargo_image_empty : zargo_Image :=
  ⟨0, 0, 0, false, false⟩

/-- Modelled from the spec: "`is_empty(i)` is true iff `id==0`" (body of
`zargo_image_is_empty` is not under src/). -/
def zargo_image_is_empty (i : zargo_Image) : Bool :=
  i.id == 0

/-- A 4-byte RGBA color, `uint8_t[4]` in the header, 0–255 per channel. -/
structure zargo_Color where
  r : ℕ
  g : ℕ
  b : ℕ
  a : ℕ
  deriving DecidableEq, Repr

/-- A draw call issued to the GPU, as recorded by the engine model; only the
fill-unit-square call matters for the claims below. -/
inductive zargo_DrawCmd where
  | fillUnit (t : zargo_Transform) (color : zargo_Color) (copy_alpha : Bool)
  deriving DecidableEq, Repr

/-- Modelled from the spec: `zargo_Engine` is opaque in the header; per spec
§3 it owns "the currently-bound render target", the drawable dimensions
(hence the projection), and resource tables for textures and framebuffers.
The model carries the bound framebuffer id, the projection dimensions,
fresh-id supplies for textures and framebuffers, the texture table, and the
log of issued draw commands, each tagged with the framebuffer that was bound
when it was issued. -/
structure zargo_Engine where
  framebuffer : ℕ
  proj_width : ℕ
  proj_height : ℕ
  next_tex : ℕ
  next_fb : ℕ
  textures : List ℕ
  commands : List (ℕ × zargo_DrawCmd)
  deriving DecidableEq, Repr

/-- Modelled from the spec: `engine_init` creates a fresh engine bound to
the window target (framebuffer 0 here) with the window projection; texture
id 0 is reserved for the empty-image sentinel, so fresh texture ids start at
1 (body of `zargo_engine_init` is not under src/). -/
def zargo_engine_init (window_width window_height : ℕ) : zargo_Engine :=
  ⟨0, window_width, window_height, 1, 1, [], []⟩

/-- Modelled from the spec: `fill_unit(transform, color, copy_alpha)` "draws
a solid-color quad obtained by mapping the unit square through `transform`"
into the currently bound target (body of `zargo_engine_fill_unit` is not
under src/). -/
def zargo_engine_fill_unit (e : zargo_Engine) (t : zargo_Transform)
    (color : zargo_Color) (copy_alpha : Bool) : zargo_Engine :=
  { e with commands := e.commands ++ [(e.framebuffer, .fillUnit t color copy_alpha)] }

/-- Modelled from the spec: `fill_rect(rect, color, copy_alpha)` draws the
solid-color quad covering `rect`'s extent on the bound target — the quad of
the unit square mapped through `rect`'s transformation (body of
`zargo_engine_fill_rect` is not under src/). -/
def zargo_engine_fill_rect (e : zargo_Engine) (r : zargo_Rectangle)
    (color : zargo_Color) (copy_alpha : Bool) : zargo_Engine :=
  { e with commands := e.commands ++
      [(e.framebuffer, .fillUnit (zargo_rectangle_transformation r) color copy_alpha)] }

/-- The result of the external image decoder: pixel dimensions and whether
the decoded format has an alpha channel. Decoding itself is an external
collaborator per spec §1; failure is represented by `none` at the call. -/
structure zargo_DecodedImage where
  width : ℕ
  height : ℕ
  has_alpha : Bool
  deriving DecidableEq, Repr

/-- Modelled from the spec: `load_image(path)` "uploads [the decoded pixels]
as a new GPU texture, and returns an Image descriptor (`has_alpha` set from
the decoded format). On decode/IO failure, returns the empty Image sentinel
rather than raising" (body of `zargo_engine_load_image` is not under src/).
The external decoder's outcome is the `decoded` argument. -/
def zargo_engine_load_image (e : zargo_Engine)
    (decoded : Option zargo_DecodedImage) : zargo_Engine × zargo_Image :=
  match decoded with
  | none => (e, zargo_image_empty)
  | some d =>
    ({ e with
        next_tex := e.next_tex + 1
        textures := e.textures ++ [e.next_tex] },
     ⟨e.next_tex, d.width, d.height, false, d.has_alpha⟩)

/-- `zargo_Canvas` from the header: the engine reference is passed
explicitly in this state-passing model, the remaining fields are the
header's `{previous_framebuffer, framebuffer, target_image, alpha,
prev_width, prev_height}`. -/
structure zargo_Canvas where
  previous_framebuffer : ℕ
  framebuffer : ℕ
  target_image : zargo_Image
  alpha : Bool
  prev_width : ℕ
  prev_height : ℕ
  deriving DecidableEq, Repr

/-- Modelled from the spec: `create(engine, width, height, with_alpha)`
"allocates a framebuffer and backing texture of the given size …; records
the Engine's currently-bound target and its dimensions as
`previous_framebuffer`/`prev_width`/`prev_height`; binds the new framebuffer
as the Engine's current target; updates the projection for `width×height`"
(body of `zargo_canvas_create` is not under src/). -/
def zargo_canvas_create (e : zargo_Engine) (width height : ℕ)
    (with_alpha : Bool) : zargo_Canvas × zargo_Engine :=
  (⟨e.framebuffer, e.next_fb, ⟨e.next_tex, width, height, true, with_alpha⟩,
    with_alpha, e.proj_width, e.proj_height⟩,
   { e with
      framebuffer := e.next_fb
      proj_width := width
      proj_height := height
      next_tex := e.next_tex + 1
      next_fb := e.next_fb + 1
      textures := e.textures ++ [e.next_tex] })

/-- Modelled from the spec: `finish(c)` "unbinds the Canvas framebuffer,
restores the Engine's previous target and projection, … and returns an Image
descriptor wrapping the backing texture with `flipped=true`,
`has_alpha=with_alpha`" (body of `zargo_canvas_finish` is not under src/). -/
def zargo_canvas_finish (c : zargo_Canvas) (e : zargo_Engine) :
    zargo_Image × zargo_Engine :=
  (⟨c.target_image.id, c.target_image.width, c.target_image.height, true, c.alpha⟩,
   { e with
      framebuffer := c.previous_framebuffer
      proj_width := c.prev_width
      proj_height := c.prev_height })

/-- C7: for every engine state, rectangle, color, and copy-alpha flag,
`fill_rect(rect, color, copy_alpha)` has exactly the same effect on the
engine (the same draw command issued to the same bound target) as
`fill_unit(transformation(rect), color, copy_alpha)`. -/
theorem C7_fill_rect_is_fill_unit_of_transformation (e : zargo_Engine)
    (r : zargo_Rectangle) (color : zargo_Color) (copy_alpha : Bool) :
    zargo_engine_fill_rect e r color copy_alpha =
      zargo_engine_fill_unit e (zargo_rectangle_transformation r) color copy_alpha :=
  rfl

/-- C8: `empty()` is the `id = 0` sentinel, `is_empty` holds exactly on
`id = 0`, and `load_image` reports decoder failure by returning the empty
sentinel (never an error), while a successful load yields a non-empty
descriptor (texture ids allocated by the engine start at 1). -/
theorem C8_empty_image_sentinel :
    zargo_image_is_empty zargo_image_empty = true ∧
    (∀ i : zargo_Image, zargo_image_is_empty i = true ↔ i.id = 0) ∧
    (∀ e : zargo_Engine, (zargo_engine_load_image e none).2 = zargo_image_empty) ∧
    (∀ (e : zargo_Engine) (d : zargo_DecodedImage), 1 ≤ e.next_tex →
      zargo_image_is_empty (zargo_engine_load_image e (some d)).2 = false) := by
  refine ⟨rfl, fun i => ?_, fun e => rfl, fun e d h => ?_⟩
  · simp [zargo_image_is_empty]
  · simp only [zargo_image_is_empty, zargo_engine_load_image, beq_eq_false_iff_ne]
    omega

/-- C8 witness: loading a successfully decoded 256×256 image on a fresh
engine yields a non-empty descriptor. -/
theorem C8_empty_image_sentinel_witness :
    1 ≤ (zargo_engine_init 800 600).next_tex ∧
    zargo_image_is_empty
      (zargo_engine_load_image (zargo_engine_init 800 600)
        (some ⟨256, 256, true⟩)).2 = false :=
  ⟨by decide,
   C8_empty_image_sentinel.2.2.2 (zargo_engine_init 800 600) ⟨256, 256, true⟩
     (by decide)⟩

/-- C9 counterexample: a create/finish pair does not leave the engine state
literally unchanged — on a fresh 800×600 engine, creating and finishing a
200×200 canvas leaves the allocated backing texture in the engine's texture
table (and advances the fresh-id supplies), so the resulting engine differs
from the original even though target and projection are restored. -/
theorem C9_canvas_roundtrip_counterexample :
    (zargo_canvas_finish
        (zargo_canvas_create (zargo_engine_init 800 600) 200 200 false).1
        (zargo_canvas_create (zargo_engine_init 800 600) 200 200 false).2).2 ≠
      zargo_engine_init 800 600 := by
  intro h
  exact absurd (congrArg zargo_Engine.next_tex h) (by decide)

/-- C9 (amended): `finish` on a canvas made by `create` restores the
engine's bound target and projection to their pre-create values, issues no
draw command, and returns an Image wrapping the canvas's backing texture
(the texture id allocated at create) with the canvas's size,
`flipped = true` and `has_alpha` equal to the creation flag; a subsequent
`fill_rect` lands on the target that was bound before the create. The
create/finish pair changes nothing else except the resource allocations: the
backing texture remains in the engine's texture table. -/
theorem C9_canvas_finish_restores_target (e : zargo_Engine) (w h : ℕ)
    (with_alpha : Bool) :
    (zargo_canvas_finish (zargo_canvas_create e w h with_alpha).1
        (zargo_canvas_create e w h with_alpha).2).2.framebuffer = e.framebuffer ∧
    (zargo_canvas_finish (zargo_canvas_create e w h with_alpha).1
        (zargo_canvas_create e w h with_alpha).2).2.proj_width = e.proj_width ∧
    (zargo_canvas_finish (zargo_canvas_create e w h with_alpha).1
        (zargo_canvas_create e w h with_alpha).2).2.proj_height = e.proj_height ∧
    (zargo_canvas_finish (zargo_canvas_create e w h with_alpha).1
        (zargo_canvas_create e w h with_alpha).2).2.commands =
      (zargo_canvas_create e w h with_alpha).2.commands ∧
    (zargo_canvas_finish (zargo_canvas_create e w h with_alpha).1
        (zargo_canvas_create e w h with_alpha).2).2.textures =
      e.textures ++ [e.next_tex] ∧
    (zargo_canvas_finish (zargo_canvas_create e w h with_alpha).1
        (zargo_canvas_create e w h with_alpha).2).1 =
      ⟨e.next_tex, w, h, true, with_alpha⟩ ∧
    (∀ (color : zargo_Color) (ca : Bool) (r : zargo_Rectangle),
      (zargo_engine_fill_rect
          (zargo_canvas_finish (zargo_canvas_create e w h with_alpha).1
            (zargo_canvas_create e w h with_alpha).2).2 r color ca).commands =
        (zargo_canvas_create e w h with_alpha).2.commands ++
          [(e.framebuffer,
            .fillUnit (zargo_rectangle_transformation r) color ca)]) :=
  ⟨rfl, rfl, rfl, rfl, rfl, rfl, fun _ _ _ => rfl⟩
